import Mathlib

/-!
Verification of the Chain_Lottery oracle submission scheduler
(`src/oracle/scheduler.py`, `src/oracle/types.py`,
`src/oracle/datasource/base.py`, `src/oracle/lottery_client.py`).

The Python code is shallowly embedded: the data objects become Lean
structures; each external effect of one poll cycle (feed fetch, chain
read, chain write, state-file save) is an explicit input describing how
that effect would turn out, and the cycle function records which effects
were invoked and with what arguments.  A raised Python exception is an
`Except.error` carrying the exception kind.
-/

namespace ChainLottery

/-- Python exception kinds that can escape the modelled functions. -/
inductive PyExc
  | valueError
  | attributeError
  | runtimeError
  | osError
deriving DecidableEq, Repr

/-- `PeriodStatus` from `src/oracle/types.py` (IntEnum SELLING/CLOSED/RESULT_IN/SETTLED). -/
inductive PeriodStatus
  | selling
  | closed
  | resultIn
  | settled
deriving DecidableEq, Repr

/-- `PeriodSnapshot` dataclass from `src/oracle/types.py`. -/
structure PeriodSnapshot where
  period_id : Int
  status : PeriodStatus
  result_set : Bool
  winning_numbers : List Int
  ticket_count : Nat
deriving DecidableEq, Repr

/-- `DrawData` dataclass from `src/oracle/datasource/base.py`; `draw_date` is
kept as an abstract timestamp since no modelled code inspects it. -/
structure DrawData where
  issue_id : String
  draw_date : Int
  numbers : List Int
deriving DecidableEq, Repr

/-- `DrawData.sorted_numbers`: `tuple(sorted(self.numbers))` — the ascending
stable sort of the reported numbers (on integers, any ascending sort). -/
def DrawData.sorted_numbers (d : DrawData) : List Int :=
  List.insertionSort (· ≤ ·) d.numbers

/-- JSON values, as produced by Python `json.loads`. -/
inductive Json
  | null
  | bool (b : Bool)
  | num (n : Int)
  | str (s : String)
  | arr (elems : List Json)
  | obj (fields : List (String × Json))
deriving Repr

/-- Contents of the oracle state file, classified the way
`OracleStateStore.load_last_issue` distinguishes them: the file may be
absent, unreadable (`read_text` raises `OSError`), readable but not valid
JSON (`json.loads` raises `JSONDecodeError`), or valid JSON parsing to a
value `j`. -/
inductive FileContent
  | missing
  | unreadable
  | invalid
  | valid (j : Json)
deriving Repr

/-- Python `dict.get key` on the dict that `json.loads` builds from an
object literal: a later duplicate key overrides an earlier one, and a
missing key yields `None`. -/
def dictGet (key : String) : List (String × Json) → Option Json
  | [] => none
  | (k, v) :: rest =>
    match dictGet key rest with
    | some v2 => some v2
    | none => if k = key then some v else none

/-- `OracleStateStore.load_last_issue` (`src/oracle/scheduler.py` lines 36-43):
returns `None` when the file is missing or `json.loads` fails; on a parsed
JSON object returns `data.get("last_issue_id")`.  On any other parsed JSON
value, `data.get` raises `AttributeError` (only `JSONDecodeError` is
caught); an unreadable file raises from `read_text`. -/
def load_last_issue : FileContent → Except PyExc (Option Json)
  | FileContent.missing => Except.ok none
  | FileContent.unreadable => Except.error PyExc.osError
  | FileContent.invalid => Except.ok none
  | FileContent.valid (Json.obj fields) => Except.ok (dictGet "last_issue_id" fields)
  | FileContent.valid _ => Except.error PyExc.attributeError

/-- `OracleStateStore.save_last_issue` (`src/oracle/scheduler.py` lines 45-47):
the file content after a successful `write_text(json.dumps({"last_issue_id": issue_id}))`. -/
def save_last_issue (issue_id : String) : FileContent :=
  FileContent.valid (Json.obj [("last_issue_id", Json.str issue_id)])

/-- `SchedulerResult` dataclass from `src/oracle/scheduler.py`. -/
structure SchedulerResult where
  period_id : Int
  issue_id : String
  tx_hash : String
deriving DecidableEq, Repr

/-- The four outcomes of the spec's Submission Decision Engine, read off the
branch structure of `OracleScheduler._attempt_submission`. -/
inductive Decision
  | skipDuplicate
  | skipNotReady
  | skipAlreadySet
  | submit
deriving DecidableEq, Repr

/-- Scheduler-owned mutable state: the in-memory `self._last_issue_id` and
the contents of the state file behind `self._state`. -/
structure SchedState where
  last_issue_id : Option String
  file : FileContent

/-- How each external effect of one poll cycle would turn out if invoked:
the feed fetch, the chain read (`get_current_period`), the chain write
(`submit_result`, returning a tx hash on success), and whether the state
save would succeed (`write_text` raises `OSError` when it fails). -/
structure CycleEnv where
  fetch : Except PyExc DrawData
  period : Except PyExc PeriodSnapshot
  write : Except PyExc String
  saveOk : Bool

/-- Observable outcome of one `_attempt_submission` call: the scheduler
state afterwards, the Python-level result (`Except.error` when the call
raises), the decision reached (if the cycle got that far), whether
`get_current_period` was invoked, and the arguments passed to
`submit_result` when it was invoked. -/
structure AttemptOut where
  state : SchedState
  result : Except PyExc (Option SchedulerResult)
  decision : Option Decision
  periodRead : Bool
  submitted : Option (Int × List Int)

/-- `OracleScheduler._attempt_submission` (`src/oracle/scheduler.py` lines
84-122), with each await's outcome supplied by `env`.  Mirrors the source
line by line: fetch, duplicate check against the in-memory id, chain read,
status gate, result_set gate, sort, chain write, in-memory update, save,
return. -/
def attemptSubmission (st : SchedState) (env : CycleEnv) : AttemptOut :=
  match env.fetch with
  | Except.error e => ⟨st, Except.error e, none, false, none⟩
  | Except.ok draw =>
    if st.last_issue_id = some draw.issue_id then
      ⟨st, Except.ok none, some Decision.skipDuplicate, false, none⟩
    else
      match env.period with
      | Except.error e => ⟨st, Except.error e, none, true, none⟩
      | Except.ok snap =>
        if snap.status ≠ PeriodStatus.closed then
          ⟨st, Except.ok none, some Decision.skipNotReady, true, none⟩
        else if snap.result_set then
          ⟨st, Except.ok none, some Decision.skipAlreadySet, true, none⟩
        else
          match env.write with
          | Except.error e =>
            ⟨st, Except.error e, some Decision.submit, true,
              some (snap.period_id, draw.sorted_numbers)⟩
          | Except.ok tx =>
            if env.saveOk then
              ⟨⟨some draw.issue_id, save_last_issue draw.issue_id⟩,
                Except.ok (some ⟨snap.period_id, draw.issue_id, tx⟩),
                some Decision.submit, true,
                some (snap.period_id, draw.sorted_numbers)⟩
            else
              ⟨⟨some draw.issue_id, st.file⟩, Except.error PyExc.osError,
                some Decision.submit, true,
                some (snap.period_id, draw.sorted_numbers)⟩

/-- Outcome of `OracleScheduler.run_once`: the attempt's outcome, and the
fact that the `finally` block always closes the datasource. -/
structure RunOnceOut where
  out : AttemptOut
  datasourceClosed : Bool

/-- `OracleScheduler.run_once` (`src/oracle/scheduler.py` lines 78-82). -/
def runOnce (st : SchedState) (env : CycleEnv) : RunOnceOut :=
  ⟨attemptSubmission st env, true⟩

/-- `OracleScheduler.run_forever` (`src/oracle/scheduler.py` lines 65-76),
run against a finite list of per-cycle environments: returns the index of
the cycle after which the loop returns, or `none` if it is still looping
when the supplied environments run out.  The loop body stores the attempt's
return value in `should_continue` and exits when
`not should_continue and submit_only_once` — a `None` (any skip) is falsy,
a `SchedulerResult` is truthy, and an exception is caught and skips the
exit check. -/
def runForeverExit (submitOnce : Bool) : SchedState → List CycleEnv → Option Nat
  | _, [] => none
  | st, env :: rest =>
    let out := attemptSubmission st env
    match out.result with
    | Except.ok r =>
      if r.isNone && submitOnce then some 0
      else (runForeverExit submitOnce out.state rest).map (· + 1)
    | Except.error _ => (runForeverExit submitOnce out.state rest).map (· + 1)

/-- The sequence of per-cycle Python-level outcomes the loop would observe,
threading the scheduler state from cycle to cycle. -/
def cycleOutcomes : SchedState → List CycleEnv → List (Except PyExc (Option SchedulerResult))
  | _, [] => []
  | st, env :: rest =>
    let out := attemptSubmission st env
    out.result :: cycleOutcomes out.state rest

/-- An outcome that completed without exception and returned `None`
(the falsy no-action outcome every skip produces). -/
def isNoActionOutcome : Except PyExc (Option SchedulerResult) → Bool
  | Except.ok none => true
  | _ => false

/-- Outcome of `LotteryClient.submit_result`: whether a transaction was
broadcast (`send_raw_transaction` reached) and the Python-level result. -/
structure SubmitOutcome where
  broadcast : Bool
  result : Except PyExc String
deriving Repr

/-- `LotteryClient.submit_result` (`src/oracle/lottery_client.py` lines
68-73): sorts the numbers, raises `ValueError` before any broadcast unless
there are exactly six, otherwise broadcasts via `_sync_submit_result`,
whose chain interaction is abstracted by `chain`. -/
def clientSubmitResult (chain : Int → List Int → Except PyExc String)
    (period_id : Int) (numbers : List Int) : SubmitOutcome :=
  let sorted := List.insertionSort (· ≤ ·) numbers
  if sorted.length ≠ 6 then ⟨false, Except.error PyExc.valueError⟩
  else
    match chain period_id sorted with
    | Except.ok h => ⟨true, Except.ok h⟩
    | Except.error e => ⟨true, Except.error e⟩

/-! ### Concrete fixtures (mirroring the scenarios in the spec and
`src/oracle/tests/test_scheduler.py`) -/

/-- The Scenario B/C draw, reported in descending order. -/
def descDraw : DrawData := ⟨"2025-002", 0, [13, 12, 11, 10, 9, 8]⟩

/-- A still-selling period snapshot (Scenario A / D). -/
def sellingSnap : PeriodSnapshot := ⟨1, PeriodStatus.selling, false, [0, 0, 0, 0, 0, 0], 10⟩

/-- A closed period with no result recorded yet (Scenario B). -/
def closedSnap : PeriodSnapshot := ⟨2, PeriodStatus.closed, false, [0, 0, 0, 0, 0, 0], 40⟩

/-- Environment where every external effect succeeds and the draw is `descDraw`. -/
def happyEnv : CycleEnv := ⟨Except.ok descDraw, Except.ok closedSnap, Except.ok "0xabc", true⟩

/-- Scheduler state that already handled issue "2025-002". -/
def dupState : SchedState := ⟨some "2025-002", save_last_issue "2025-002"⟩

/-- Fresh scheduler state: no prior submission, no state file. -/
def freshState : SchedState := ⟨none, FileContent.missing⟩

/-! ### Shared helper lemmas -/

/-- Whenever a cycle invokes the chain writer, the numbers it passes are
exactly `draw.sorted_numbers` of the fetched draw. -/
theorem submitted_args_eq (st : SchedState) (env : CycleEnv) (draw : DrawData)
    (pid : Int) (nums : List Int) (hf : env.fetch = Except.ok draw)
    (hs : (attemptSubmission st env).submitted = some (pid, nums)) :
    nums = draw.sorted_numbers := by
  by_cases hdup : st.last_issue_id = some draw.issue_id
  · simp [attemptSubmission, hf, hdup] at hs
  · rcases hp : env.period with e | snap
    · simp [attemptSubmission, hf, hdup, hp] at hs
    · by_cases hst : snap.status = PeriodStatus.closed
      · by_cases hrs : snap.result_set
        · simp [attemptSubmission, hf, hdup, hp, hst, hrs] at hs
        · rcases hw : env.write with e | tx
          · simp [attemptSubmission, hf, hdup, hp, hst, hrs, hw] at hs
            exact hs.2.symm
          · cases hsv : env.saveOk <;>
              · simp [attemptSubmission, hf, hdup, hp, hst, hrs, hw, hsv] at hs
                exact hs.2.symm
      · simp [attemptSubmission, hf, hdup, hp, hst] at hs

/-! ### C2: duplicate issue always yields Skip-Duplicate -/

/-- C2: if the stored `last_issue_id` is present and equals the fetched
result's `issue_id`, the cycle's decision is Skip-Duplicate, it completes
without exception returning the no-action outcome, and no submission is
made — regardless of the period snapshot or any other environment field. -/
theorem duplicate_always_skips (st : SchedState) (env : CycleEnv) (draw : DrawData)
    (hf : env.fetch = Except.ok draw) (hdup : st.last_issue_id = some draw.issue_id) :
    (attemptSubmission st env).decision = some Decision.skipDuplicate ∧
    (attemptSubmission st env).result = Except.ok none ∧
    (attemptSubmission st env).submitted = none := by
  simp [attemptSubmission, hf, hdup]

/-- Witness for C2 at a concrete duplicate state (Scenario C). -/
theorem duplicate_always_skips_witness :
    (attemptSubmission dupState happyEnv).decision = some Decision.skipDuplicate ∧
    (attemptSubmission dupState happyEnv).result = Except.ok none ∧
    (attemptSubmission dupState happyEnv).submitted = none :=
  duplicate_always_skips dupState happyEnv descDraw rfl rfl

/-! ### C4: the duplicate check precedes any chain access -/

/-- C4: when the fetched result's `issue_id` equals the in-memory
`last_issue_id`, neither the chain reader (`get_current_period`) nor the
chain writer (`submit_result`) is invoked during that cycle. -/
theorem duplicate_no_chain_access (st : SchedState) (env : CycleEnv) (draw : DrawData)
    (hf : env.fetch = Except.ok draw) (hdup : st.last_issue_id = some draw.issue_id) :
    (attemptSubmission st env).periodRead = false ∧
    (attemptSubmission st env).submitted = none := by
  simp [attemptSubmission, hf, hdup]

/-- Witness for C4 at a concrete duplicate state. -/
theorem duplicate_no_chain_access_witness :
    (attemptSubmission dupState happyEnv).periodRead = false ∧
    (attemptSubmission dupState happyEnv).submitted = none :=
  duplicate_no_chain_access dupState happyEnv descDraw rfl rfl

/-! ### C5: submitted numbers are the ascending sort of the feed's numbers -/

/-- C5: whenever a cycle invokes the chain writer, the numbers passed are
the ascending sort of the fetched draw's reported numbers: a permutation
of the input arranged in non-decreasing order, independent of input order. -/
theorem submit_numbers_canonical (st : SchedState) (env : CycleEnv) (draw : DrawData)
    (pid : Int) (nums : List Int) (hf : env.fetch = Except.ok draw)
    (hs : (attemptSubmission st env).submitted = some (pid, nums)) :
    nums = List.insertionSort (· ≤ ·) draw.numbers ∧
    nums.Perm draw.numbers ∧ List.Sorted (· ≤ ·) nums := by
  have h := submitted_args_eq st env draw pid nums hf hs
  subst h
  exact ⟨rfl, List.perm_insertionSort _ _, List.sorted_insertionSort _ _⟩

/-- Witness for C5: the feed numbers `[13,12,11,10,9,8]` are submitted as
`[8,9,10,11,12,13]`. -/
theorem submit_numbers_canonical_witness :
    ([8, 9, 10, 11, 12, 13] : List Int) = List.insertionSort (· ≤ ·) descDraw.numbers ∧
    List.Perm ([8, 9, 10, 11, 12, 13] : List Int) descDraw.numbers ∧
    List.Sorted (· ≤ ·) ([8, 9, 10, 11, 12, 13] : List Int) :=
  submit_numbers_canonical freshState happyEnv descDraw 2 [8, 9, 10, 11, 12, 13] rfl rfl

/-! ### C3: readiness gating after a non-duplicate fetch -/

/-- C3: in a cycle where the stored id differs from the fetched issue and
the period snapshot is read: a non-Closed status yields Skip-NotReady with
no chain write; Closed with `result_set` yields Skip-AlreadySet with no
chain write; Closed without `result_set` yields Submit, invoking the chain
writer with the snapshot's `period_id` and the ascending-sorted numbers. -/
theorem decision_gating (st : SchedState) (env : CycleEnv) (draw : DrawData)
    (snap : PeriodSnapshot) (hf : env.fetch = Except.ok draw)
    (hdup : st.last_issue_id ≠ some draw.issue_id) (hp : env.period = Except.ok snap) :
    (snap.status ≠ PeriodStatus.closed →
      (attemptSubmission st env).decision = some Decision.skipNotReady ∧
      (attemptSubmission st env).submitted = none) ∧
    (snap.status = PeriodStatus.closed → snap.result_set = true →
      (attemptSubmission st env).decision = some Decision.skipAlreadySet ∧
      (attemptSubmission st env).submitted = none) ∧
    (snap.status = PeriodStatus.closed → snap.result_set = false →
      (attemptSubmission st env).decision = some Decision.submit ∧
      (attemptSubmission st env).submitted = some (snap.period_id, draw.sorted_numbers)) := by
  refine ⟨fun hst => ?_, fun hst hrs => ?_, fun hst hrs => ?_⟩
  · simp [attemptSubmission, hf, hdup, hp, hst]
  · simp [attemptSubmission, hf, hdup, hp, hst, hrs]
  · rcases hw : env.write with e | tx
    · simp [attemptSubmission, hf, hdup, hp, hst, hrs, hw]
    · cases hsv : env.saveOk <;> simp [attemptSubmission, hf, hdup, hp, hst, hrs, hw, hsv]

/-- Witness for C3 at Scenario B's concrete inputs (fresh state, closed
period without result, draw "2025-002"). -/
theorem decision_gating_witness :
    (closedSnap.status ≠ PeriodStatus.closed →
      (attemptSubmission freshState happyEnv).decision = some Decision.skipNotReady ∧
      (attemptSubmission freshState happyEnv).submitted = none) ∧
    (closedSnap.status = PeriodStatus.closed → closedSnap.result_set = true →
      (attemptSubmission freshState happyEnv).decision = some Decision.skipAlreadySet ∧
      (attemptSubmission freshState happyEnv).submitted = none) ∧
    (closedSnap.status = PeriodStatus.closed → closedSnap.result_set = false →
      (attemptSubmission freshState happyEnv).decision = some Decision.submit ∧
      (attemptSubmission freshState happyEnv).submitted =
        some (closedSnap.period_id, descDraw.sorted_numbers)) :=
  decision_gating freshState happyEnv descDraw closedSnap rfl (by simp [freshState]) rfl

/-! ### C6: no state change unless the chain write succeeded -/

/-- C6: if the feed fetch, the chain read, or the chain write fails
(raises), both the in-memory `last_issue_id` and the state-file contents
are exactly as they were before the cycle began: the only path that
mutates either one runs strictly after a successful chain write. -/
theorem state_untouched_on_failure (st : SchedState) (env : CycleEnv)
    (h : (∃ e, env.fetch = Except.error e) ∨ (∃ e, env.period = Except.error e) ∨
      (∃ e, env.write = Except.error e)) :
    (attemptSubmission st env).state = st := by
  rcases hf : env.fetch with e | draw
  · simp [attemptSubmission, hf]
  · by_cases hdup : st.last_issue_id = some draw.issue_id
    · simp [attemptSubmission, hf, hdup]
    · rcases hp : env.period with e | snap
      · simp [attemptSubmission, hf, hdup, hp]
      · by_cases hst : snap.status = PeriodStatus.closed
        · by_cases hrs : snap.result_set
          · simp [attemptSubmission, hf, hdup, hp, hst, hrs]
          · rcases hw : env.write with e | tx
            · simp [attemptSubmission, hf, hdup, hp, hst, hrs, hw]
            · rcases h with ⟨e, he⟩ | ⟨e, he⟩ | ⟨e, he⟩ <;>
                simp [hf, hp, hw] at he
        · simp [attemptSubmission, hf, hdup, hp, hst]

/-- Witness for C6: a cycle whose chain read fails leaves the state as it
was. -/
theorem state_untouched_on_failure_witness :
    (attemptSubmission freshState
      ⟨Except.ok descDraw, Except.error PyExc.runtimeError, Except.ok "0xabc", true⟩).state =
      freshState :=
  state_untouched_on_failure freshState
    ⟨Except.ok descDraw, Except.error PyExc.runtimeError, Except.ok "0xabc", true⟩
    (Or.inr (Or.inl ⟨PyExc.runtimeError, rfl⟩))

/-! ### C7: corrupt-state tolerance of `load_last_issue` -/

/-- Counterexample to C7 as stated: a state file containing the valid JSON
text "5" — a bare number, not an object — makes `load_last_issue` raise
`AttributeError` (from `data.get` on an `int`), instead of returning
absent; only `JSONDecodeError` is caught. -/
theorem load_raises_on_json_number :
    load_last_issue (FileContent.valid (Json.num 5)) = Except.error PyExc.attributeError := rfl

/-- C7 (amended): `load()` returns absent when the file is missing or its
content is not parseable JSON; but when the content parses to a JSON value
that is not an object (number, string, array, boolean or null) it raises
`AttributeError`, and an unreadable file raises the read error. On an
object it returns the object's `last_issue_id` member (absent if missing). -/
theorem load_tolerance_characterization :
    load_last_issue FileContent.missing = Except.ok none ∧
    load_last_issue FileContent.invalid = Except.ok none ∧
    load_last_issue FileContent.unreadable = Except.error PyExc.osError ∧
    (∀ fields, load_last_issue (FileContent.valid (Json.obj fields)) =
      Except.ok (dictGet "last_issue_id" fields)) ∧
    (∀ j : Json, (∀ fields, j ≠ Json.obj fields) →
      load_last_issue (FileContent.valid j) = Except.error PyExc.attributeError) := by
  refine ⟨rfl, rfl, rfl, fun _ => rfl, fun j hj => ?_⟩
  cases j with
  | obj fields => exact absurd rfl (hj fields)
  | null => rfl
  | bool b => rfl
  | num n => rfl
  | str s => rfl
  | arr elems => rfl

/-- Witness for C7 (amended): instantiated at the empty JSON array. -/
theorem load_tolerance_characterization_witness :
    load_last_issue (FileContent.valid (Json.arr [])) = Except.error PyExc.attributeError :=
  load_tolerance_characterization.2.2.2.2 (Json.arr [])
    (fun _ h => Json.noConfusion h)

/-! ### C8: save followed by load round-trips across a restart -/

/-- C8: for every issue-id string `s`, after `save(s)` succeeds, a fresh
State Store instance reading the same file returns exactly `s` from
`load()` (the store keeps no in-memory cache, so a fresh instance sees
exactly the file contents written by `save`). -/
theorem save_load_roundtrip (s : String) :
    load_last_issue (save_last_issue s) = Except.ok (some (Json.str s)) := by
  simp [save_last_issue, load_last_issue, dictGet]

/-- Witness for C8 at the spec's concrete id "2025-002". -/
theorem save_load_roundtrip_witness :
    load_last_issue (save_last_issue "2025-002") = Except.ok (some (Json.str "2025-002")) :=
  save_load_roundtrip "2025-002"

/-! ### C9: behaviour when the state save fails after a successful write -/

/-- Environment where everything succeeds except the state-file save. -/
def saveFailEnv : CycleEnv := ⟨Except.ok descDraw, Except.ok closedSnap, Except.ok "0xabc", false⟩

/-- Counterexample to C9 as stated: with a fresh state, a closed period and
a chain write that succeeds with tx "0xabc", a failing save makes the cycle
raise — `run_once` propagates the exception instead of returning the
`SchedulerResult`, even though the chain writer was invoked (the `finally`
still closes the datasource). The save call is not wrapped in any handler. -/
theorem save_failure_masks_submission :
    (runOnce freshState saveFailEnv).out.submitted = some (2, [8, 9, 10, 11, 12, 13]) ∧
    (runOnce freshState saveFailEnv).out.result = Except.error PyExc.osError ∧
    (runOnce freshState saveFailEnv).datasourceClosed = true :=
  ⟨rfl, rfl, rfl⟩

/-- C9 (amended): if the chain write succeeds but the State Store save
fails, the save exception propagates out of the cycle — in run-once the
caller receives the exception rather than the transaction identifier (in
run-forever it is caught by the generic per-cycle handler) — while the
in-memory `last_issue_id` has already been updated to the submitted issue
and the state file is left unchanged. -/
theorem save_failure_propagates (st : SchedState) (env : CycleEnv) (draw : DrawData)
    (snap : PeriodSnapshot) (tx : String) (hf : env.fetch = Except.ok draw)
    (hdup : st.last_issue_id ≠ some draw.issue_id) (hp : env.period = Except.ok snap)
    (hst : snap.status = PeriodStatus.closed) (hrs : snap.result_set = false)
    (hw : env.write = Except.ok tx) (hsv : env.saveOk = false) :
    (attemptSubmission st env).result = Except.error PyExc.osError ∧
    (attemptSubmission st env).submitted = some (snap.period_id, draw.sorted_numbers) ∧
    (attemptSubmission st env).state.last_issue_id = some draw.issue_id ∧
    (attemptSubmission st env).state.file = st.file := by
  simp [attemptSubmission, hf, hdup, hp, hst, hrs, hw, hsv]

/-- Witness for C9 (amended) at the concrete save-failure environment. -/
theorem save_failure_propagates_witness :
    (attemptSubmission freshState saveFailEnv).result = Except.error PyExc.osError ∧
    (attemptSubmission freshState saveFailEnv).submitted =
      some (closedSnap.period_id, descDraw.sorted_numbers) ∧
    (attemptSubmission freshState saveFailEnv).state.last_issue_id =
      some descDraw.issue_id ∧
    (attemptSubmission freshState saveFailEnv).state.file = freshState.file :=
  save_failure_propagates freshState saveFailEnv descDraw closedSnap "0xabc" rfl
    (by simp [freshState]) rfl rfl rfl rfl rfl

/-! ### C10: the production writer requires exactly six numbers -/

/-- C10: `LotteryClient.submit_result` raises `ValueError` without
broadcasting any transaction whenever its numbers argument does not have
exactly six elements; and the scheduler imposes no length check of its
own — whatever count of numbers the feed reports is passed through to the
writer unchanged in length. -/
theorem submit_result_length_guard
    (chain : Int → List Int → Except PyExc String) (pid : Int) (nums : List Int)
    (h : nums.length ≠ 6) :
    clientSubmitResult chain pid nums = ⟨false, Except.error PyExc.valueError⟩ ∧
    ∀ st env draw p ns, env.fetch = Except.ok draw →
      (attemptSubmission st env).submitted = some (p, ns) →
      ns.length = draw.numbers.length := by
  constructor
  · simp [clientSubmitResult, List.length_insertionSort, h]
  · intro st env draw p ns hf hs
    have he := submitted_args_eq st env draw p ns hf hs
    subst he
    simp only [DrawData.sorted_numbers]
    exact List.length_insertionSort _ _

/-- Witness for C10: Scenario B's 3-number result `[13,9,11]` is rejected
by the writer before any broadcast. -/
theorem submit_result_length_guard_witness :
    clientSubmitResult (fun _ _ => Except.ok "0xabc") 2 [13, 9, 11] =
      ⟨false, Except.error PyExc.valueError⟩ ∧
    ∀ st env draw p ns, env.fetch = Except.ok draw →
      (attemptSubmission st env).submitted = some (p, ns) →
      ns.length = draw.numbers.length :=
  submit_result_length_guard (fun _ _ => Except.ok "0xabc") 2 [13, 9, 11] (by decide)

/-! ### C1: exit condition of run-forever under submit-only-once -/

/-- Environment whose draw duplicates `dupState`'s stored issue id. -/
def dupEnv : CycleEnv := ⟨Except.ok descDraw, Except.ok sellingSnap, Except.ok "0x1", true⟩

/-- Counterexample to C1 as stated: with submit-only-once set, a first
cycle deciding Skip-Duplicate makes the loop exit immediately (index 0),
where the claim requires it to continue; and a first cycle deciding Submit
leaves the loop still running (no exit within the supplied cycles), where
the claim requires it to exit. The loop tests the falsiness of the
attempt's return value, and every skip — Skip-Duplicate included —
returns `None`, while a submission returns a truthy `SchedulerResult`. -/
theorem submit_once_exit_counterexample :
    (runForeverExit true dupState [dupEnv, dupEnv] = some 0 ∧
      (attemptSubmission dupState dupEnv).decision = some Decision.skipDuplicate) ∧
    (runForeverExit true freshState [happyEnv] = none ∧
      (attemptSubmission freshState happyEnv).decision = some Decision.submit) :=
  ⟨⟨rfl, rfl⟩, ⟨rfl, rfl⟩⟩

/-- C1 (amended): in run-forever mode with submit-only-once configured,
the loop exits exactly after the first cycle that completes without
exception and returns the no-action outcome — that is, after the first
cycle whose decision is any Skip, Skip-Duplicate included — and it keeps
looping after Submit cycles and after cycles that raise. -/
theorem submit_once_exits_at_first_skip (st : SchedState) (envs : List CycleEnv) :
    runForeverExit true st envs = (cycleOutcomes st envs).findIdx? isNoActionOutcome ∧
    ∀ s e, isNoActionOutcome (attemptSubmission s e).result = true ↔
      ((attemptSubmission s e).decision = some Decision.skipDuplicate ∨
        (attemptSubmission s e).decision = some Decision.skipNotReady ∨
        (attemptSubmission s e).decision = some Decision.skipAlreadySet) := by
  constructor
  · induction envs generalizing st with
    | nil => rfl
    | cons env rest ih =>
      rcases hres : (attemptSubmission st env).result with e | r
      · simp [runForeverExit, cycleOutcomes, hres, isNoActionOutcome,
          List.findIdx?_cons, List.findIdx?_succ, ih]
      · cases r with
        | none =>
          simp [runForeverExit, cycleOutcomes, hres, isNoActionOutcome, List.findIdx?_cons]
        | some v =>
          simp [runForeverExit, cycleOutcomes, hres, isNoActionOutcome,
            List.findIdx?_cons, List.findIdx?_succ, ih]
  · intro s e
    rcases hf : e.fetch with er | draw
    · simp [attemptSubmission, isNoActionOutcome, hf]
    · by_cases hdup : s.last_issue_id = some draw.issue_id
      · simp [attemptSubmission, isNoActionOutcome, hf, hdup]
      · rcases hp : e.period with er | snap
        · simp [attemptSubmission, isNoActionOutcome, hf, hdup, hp]
        · by_cases hst : snap.status = PeriodStatus.closed
          · by_cases hrs : snap.result_set
            · simp [attemptSubmission, isNoActionOutcome, hf, hdup, hp, hst, hrs]
            · rcases hw : e.write with er | tx
              · simp [attemptSubmission, isNoActionOutcome, hf, hdup, hp, hst, hrs, hw]
              · cases hsv : e.saveOk <;>
                  simp [attemptSubmission, isNoActionOutcome, hf, hdup, hp, hst, hrs, hw, hsv]
          · simp [attemptSubmission, isNoActionOutcome, hf, hdup, hp, hst]

/-- Witness for C1 (amended), instantiated at a concrete state and cycle list. -/
theorem submit_once_exits_at_first_skip_witness :
    runForeverExit true dupState [dupEnv, happyEnv] =
      (cycleOutcomes dupState [dupEnv, happyEnv]).findIdx? isNoActionOutcome ∧
    ∀ s e, isNoActionOutcome (attemptSubmission s e).result = true ↔
      ((attemptSubmission s e).decision = some Decision.skipDuplicate ∨
        (attemptSubmission s e).decision = some Decision.skipNotReady ∨
        (attemptSubmission s e).decision = some Decision.skipAlreadySet) :=
  submit_once_exits_at_first_skip dupState [dupEnv, happyEnv]

end ChainLottery
